import Mathlib

/-!
# RIM_INSPECTION — verification of the scheduling/conflict engine

Shallow embedding of the booking ("Schedule") and inspection operations of
the repository (Django app `rim_inseption/inseption`): the model layer
(`models.py`), the request handlers (`views.py`) and the serializer-level
uniqueness validation implied by the model constraints (`serializers.py`
with `fields = "__all__"`).

Conventions of the embedding:
* times of day are seconds since midnight (`Nat`), dates are calendar
  triples; a Python `datetime` is an `Instant` (date plus seconds);
* the database table is a `List Schedule` (resp. `List Inspection`);
  `Schedule.objects.filter(...).exists()` becomes `List.any`,
  `Schedule.objects.get(..., is_canceled=False)` becomes `List.find?`
  with the same predicate, a row update becomes `List.map`;
* `request.data.get(k)` is an `Option String` (`none` = key absent);
  Python truthiness of the retrieved value (`if not location`) is
  `is_blank` (absent or empty string);
* `datetime.strptime` is embedded by executable parsers for the exact
  format strings used by the source (`%H:%M`, `%H:%M:%S`, `%Y-%m-%d`),
  including calendar validation of the day of month;
* a `ValueError` that the view does not catch is the
  `CreateOutcome.uncaughtException` constructor (the argument names the
  field whose parse raised), as opposed to the structured
  `Response(...)` values which are the other constructors;
* Celery `task.apply_async(args=[id], eta=t)` calls are recorded as the
  list of `(eta, target status)` pairs the view issues;
* fields never read by any modelled operation (`created_at`, the
  inspection image, description and timestamp) are omitted.
-/

namespace Rim

/-- Booking status, `models.py` `Schedule.STATUS_CHOICES`. -/
inductive Status where
  | scheduled
  | processing
  | completed
deriving DecidableEq, Repr

/-- A calendar date (`datetime.date`). -/
structure Date where
  year : Nat
  month : Nat
  day : Nat
deriving DecidableEq, Repr

/-- Gregorian leap-year rule, as used by `datetime` for day-of-month
validation. -/
def isLeap (y : Nat) : Bool :=
  y % 4 == 0 && (y % 100 != 0 || y % 400 == 0)

/-- Days in a month, as validated by `datetime.date`. -/
def daysInMonth (y m : Nat) : Nat :=
  if m == 2 then (if isLeap y then 29 else 28)
  else if m == 4 || m == 6 || m == 9 || m == 11 then 30
  else 31

/-- Successor date (used when adding a timedelta crosses midnight). -/
def Date.next (d : Date) : Date :=
  if d.day < daysInMonth d.year d.month then ⟨d.year, d.month, d.day + 1⟩
  else if d.month < 12 then ⟨d.year, d.month + 1, 1⟩
  else ⟨d.year + 1, 1, 1⟩

/-- A `datetime`: a date plus seconds since midnight. -/
structure Instant where
  date : Date
  secs : Nat
deriving DecidableEq, Repr

/-- `datetime + timedelta(seconds=n)` for `n < 86400`: the time-of-day
wraps and the date advances when midnight is crossed. -/
def Instant.addSecs (i : Instant) (n : Nat) : Instant :=
  if i.secs + n < 86400 then ⟨i.date, i.secs + n⟩
  else ⟨i.date.next, i.secs + n - 86400⟩

/-- `dt.replace(second=0, microsecond=0)` on a time of day: floor to the
minute. -/
def floorMinute (s : Nat) : Nat := s / 60 * 60

/-- A row of the `Schedule` table (`models.py`).  `created_at` is
omitted (auto-set, never read by the modelled operations). -/
structure Schedule where
  id : Nat
  location : String
  scheduled_date : Date
  scheduled_time : Nat
  end_time : Nat
  is_canceled : Bool
  status : Status
deriving DecidableEq, Repr

/-- `Schedule.save`, `models.py` lines 22-28: when no `end_time` is set,
derive it as `scheduled_time + 1 hour` (time-of-day of the combined
datetime, so it wraps past midnight). -/
def save_end_time (scheduled_time : Nat) (end_time : Option Nat) : Nat :=
  match end_time with
  | some e => e
  | none => (scheduled_time + 3600) % 86400

/-! ## strptime embedding -/

/-- Value of a decimal digit character, `none` for a non-digit. -/
def digVal (c : Char) : Option Nat :=
  if '0' ≤ c && c ≤ '9' then some (c.toNat - 48) else none

/-- A field of one or two decimal digits (what `strptime` accepts for
`%H`, `%M`, `%S`, `%m`, `%d`). -/
def parseField2 : List Char → Option Nat
  | [c] => digVal c
  | [c, c2] => do pure ((← digVal c) * 10 + (← digVal c2))
  | _ => none

/-- A field of exactly four decimal digits (`%Y`). -/
def parseField4 : List Char → Option Nat
  | [c, c2, c3, c4] => do
      pure (((← digVal c) * 1000 + (← digVal c2) * 100) +
            ((← digVal c3) * 10 + (← digVal c4)))
  | _ => none

/-- Split a character list on a separator character. -/
def splitSep (sep : Char) : List Char → List (List Char)
  | [] => [[]]
  | c :: cs =>
    match splitSep sep cs with
    | [] => if c == sep then [[], []] else [[c]]
    | g :: gs => if c == sep then [] :: g :: gs else (c :: g) :: gs

/-- `datetime.strptime(t, "%H:%M").time()` as seconds since midnight;
`none` models the `ValueError`. -/
def parse_hm (t : String) : Option Nat :=
  match splitSep ':' t.data with
  | [hs, ms] => do
      let h ← parseField2 hs
      let m ← parseField2 ms
      if h ≤ 23 && m ≤ 59 then pure (h * 3600 + m * 60) else none
  | _ => none

/-- `datetime.strptime(t, "%H:%M:%S").time()` as seconds since midnight;
`none` models the `ValueError`. -/
def parse_hms (t : String) : Option Nat :=
  match splitSep ':' t.data with
  | [hs, ms, ss] => do
      let h ← parseField2 hs
      let m ← parseField2 ms
      let s ← parseField2 ss
      if h ≤ 23 && m ≤ 59 && s ≤ 59 then pure (h * 3600 + m * 60 + s)
      else none
  | _ => none

/-- The view-local `parse_time`, `views.py` lines 50-54: try `%H:%M`,
on `ValueError` try `%H:%M:%S`; a second failure propagates (here:
`none`). -/
def parse_time (t : String) : Option Nat :=
  match parse_hm t with
  | some v => some v
  | none => parse_hms t

/-- `datetime.strptime(d, "%Y-%m-%d").date()`; `none` models the
`ValueError`, including an out-of-range day for the month. -/
def parse_date (s : String) : Option Date :=
  match splitSep '-' s.data with
  | [ys, ms, ds] => do
      let y ← parseField4 ys
      let m ← parseField2 ms
      let d ← parseField2 ds
      if 1 ≤ m && m ≤ 12 && 1 ≤ d && d ≤ daysInMonth y m then
        pure ⟨y, m, d⟩
      else none
  | _ => none

/-! ## Conflict detection -/

/-- The row predicate of the overlap queryset shared by all three write
paths (`views.py` lines 65-70, 140-145, 219-224):
`location=location, scheduled_date=date,
scheduled_time__lt=proposed_end, end_time__gt=proposed_start`.
Note that the source filter has no `is_canceled=False` clause. -/
def schedule_overlaps (loc : String) (d : Date) (a b : Nat)
    (s : Schedule) : Bool :=
  s.location == loc && s.scheduled_date == d &&
    decide (s.scheduled_time < b) && decide (a < s.end_time)

/-- `Schedule.objects.filter(<overlap>).exists()` (create and
immediate-create paths). -/
def has_overlap (db : List Schedule) (loc : String) (d : Date)
    (a b : Nat) : Bool :=
  db.any (schedule_overlaps loc d a b)

/-- `Schedule.objects.filter(<overlap>).exclude(id=schedule_id).exists()`
(update path, `views.py` lines 219-224). -/
def update_overlap (db : List Schedule) (loc : String) (d : Date)
    (a b : Nat) (sid : Nat) : Bool :=
  db.any (fun s => !(s.id == sid) && schedule_overlaps loc d a b s)

/-! ## create_schedule -/

/-- The body of a POST to `schedule/create/`: the three keys the view
reads from `request.data`. -/
structure CreateRequest where
  location : Option String
  scheduled_date : Option String
  scheduled_time : Option String
deriving DecidableEq, Repr

/-- Python truthiness of `request.data.get(k)` for a string field:
absent key or empty string. -/
def is_blank : Option String → Bool
  | none => true
  | some s => s == ""

/-- The `missing_fields` list built by `create_schedule`, `views.py`
lines 31-37. -/
def missing_fields (r : CreateRequest) : List String :=
  (if is_blank r.location then ["location"] else []) ++
  (if is_blank r.scheduled_date then ["scheduled_date"] else []) ++
  (if is_blank r.scheduled_time then ["scheduled_time"] else [])

/-- The message of the missing-fields response, `views.py` line 43. -/
def missing_message (fields : List String) : String :=
  "Missing required fields: " ++ String.intercalate ", " fields

/-- Outcome of a create-style view.  `validationError` and
`conflictError` are the structured 400 `Response`s; `created` is the
201 `Response` together with the two Celery transitions the view
scheduled (`(eta, target status)`); `uncaughtException` is a
`ValueError` that escaped the view (no `try/except` around the
`strptime` calls), its argument naming the request field whose parse
raised. -/
inductive CreateOutcome where
  | validationError (message : String)
  | uncaughtException (field : String)
  | conflictError
  | created (s : Schedule) (tasks : List (Instant × Status))
deriving DecidableEq, Repr

/-- `create_schedule`, `views.py` lines 24-110: validate required
fields (collecting all missing ones), parse time then date (uncaught
`ValueError` on malformed input), derive the end time as start plus
3 minutes (`timedelta(minutes=3)`, the time-of-day of the sum), check
the overlap queryset, then save with the derived `end_time` and
schedule the two status transitions at `combine(date, start)` and
`combine(date, end_time)`. -/
def create_schedule (db : List Schedule) (nid : Nat)
    (r : CreateRequest) : CreateOutcome :=
  if missing_fields r ≠ [] then
    .validationError (missing_message (missing_fields r))
  else
    match parse_time (r.scheduled_time.getD "") with
    | none => .uncaughtException "scheduled_time"
    | some t =>
      match parse_date (r.scheduled_date.getD "") with
      | none => .uncaughtException "scheduled_date"
      | some d =>
        let loc := r.location.getD ""
        let endT := (t + 180) % 86400
        if has_overlap db loc d t endT then .conflictError
        else
          .created
            ⟨nid, loc, d, t, endT, false, .scheduled⟩
            [(⟨d, t⟩, .processing), (⟨d, endT⟩, .completed)]

/-! ## create_schedule_immediately -/

/-- `create_schedule_immediately`, `views.py` lines 113-189: require a
non-blank `location`; read the clock (`timezone.localtime()`), floor it
to the minute (`replace(second=0, microsecond=0)`); the window starts at
the rounded now and ends three minutes later (the end's time-of-day
taken from the summed datetime); run the same overlap queryset; create
the row directly with `status="processing"`; schedule the transitions at
the rounded now and at the end datetime. -/
def create_schedule_immediately (db : List Schedule) (nid : Nat)
    (location : Option String) (now : Instant) : CreateOutcome :=
  if is_blank location then
    .validationError "Missing required field: location"
  else
    let loc := location.getD ""
    let rounded : Instant := ⟨now.date, floorMinute now.secs⟩
    let endDt := rounded.addSecs 180
    let endT := endDt.secs
    if has_overlap db loc rounded.date rounded.secs endT then .conflictError
    else
      .created
        ⟨nid, loc, rounded.date, rounded.secs, endT, false, .processing⟩
        [(rounded, .processing), (endDt, .completed)]

/-! ## update_schedule -/

/-- Outcome of `update_schedule`.  `updated` carries the modified row
and the two Celery transitions the view scheduled. -/
inductive UpdateOutcome where
  | notFound
  | conflictError
  | updated (s : Schedule) (tasks : List (Instant × Status))
deriving DecidableEq, Repr

/-- The row rewrite of `schedule.save()` after the update path set the
new fields, `views.py` lines 237-242. -/
def apply_update (sid : Nat) (s : Schedule) (t : Schedule) : Schedule :=
  if t.id == sid then s else t

/-- The field assignments of the update path, `views.py` lines 237-241:
new location, window reset to the clock (start floored to the minute,
end the time-of-day of the unrounded `now + 3 minutes`), status forced
to `processing`. -/
def reset_window (s : Schedule) (loc : String) (now : Instant) :
    Schedule :=
  { s with location := loc, scheduled_date := now.date,
           scheduled_time := floorMinute now.secs,
           end_time := (now.addSecs 180).secs,
           status := .processing }

/-- `update_schedule`, `views.py` lines 192-267: look the row up with
`get(id=schedule_id, is_canceled=False)` (404 when absent); take the
optional new `location` (defaulting to the stored one); reset the
window to the clock: start is `now` floored to the minute, end is the
time-of-day of the unrounded `now + 3 minutes`; run the overlap
queryset excluding the row itself; store the new window with
`status="processing"`; schedule the transitions at `now` (the view
reads the clock again; modelled as the same instant) and at the end
datetime.  Returns the outcome and the table after the request. -/
def update_schedule (db : List Schedule) (sid : Nat)
    (reqLocation : Option String) (now : Instant) :
    UpdateOutcome × List Schedule :=
  match db.find? (fun t => t.id == sid && !t.is_canceled) with
  | none => (.notFound, db)
  | some s =>
    let loc := reqLocation.getD s.location
    if update_overlap db loc now.date (floorMinute now.secs)
        ((now.addSecs 180).secs) sid then
      (.conflictError, db)
    else
      (.updated (reset_window s loc now)
         [(now, .processing), (now.addSecs 180, .completed)],
       db.map (apply_update sid (reset_window s loc now)))

/-! ## delete_schedule -/

/-- Outcome of `delete_schedule`. -/
inductive DeleteOutcome where
  | notFound
  | invalidState
  | deleted
deriving DecidableEq, Repr

/-- The row rewrite of the soft delete, `views.py` lines 301-302: set
`is_canceled` on the targeted row, touch nothing else. -/
def cancel_mark (sid : Nat) (t : Schedule) : Schedule :=
  if t.id == sid then { t with is_canceled := true } else t

/-- `delete_schedule`, `views.py` lines 275-310: look the row up with
`get(id=schedule_id, is_canceled=False)` (404 when absent or already
canceled); refuse when `status == "completed"`; otherwise set
`is_canceled = True` and save.  Returns the outcome and the table
after the request. -/
def delete_schedule (db : List Schedule) (sid : Nat) :
    DeleteOutcome × List Schedule :=
  match db.find? (fun t => t.id == sid && !t.is_canceled) with
  | none => (.notFound, db)
  | some s =>
    if s.status = .completed then (.invalidState, db)
    else (.deleted, db.map (cancel_mark sid))

/-! ## Inspections -/

/-- A row of the `Inspection` table (`models.py` lines 34-46); the
image, description and `inspected_at` fields are omitted (never read by
the modelled validation). -/
structure Inspection where
  schedule_id : Nat
  rim_id : String
  is_defect : Bool
deriving DecidableEq, Repr

/-- Outcome of creating an inspection. -/
inductive InspectionOutcome where
  | duplicateError
  | created (i : Inspection)
deriving DecidableEq, Repr

/-- The create of `InspectionListCreateView`, `views.py` lines 413-432,
whose `InspectionSerializer` (`fields = "__all__"`) enforces the model
constraints of `models.py`: the field-level `unique=True` on `rim_id`
(line 36, a table-wide uniqueness check) and the
`unique_together = ("schedule", "rim_id")` of `Meta` (line 44, a
per-booking uniqueness check).  Either validator failing yields the
duplicate 400 response. -/
def create_inspection (db : List Inspection) (sid : Nat)
    (rim : String) (defect : Bool) : InspectionOutcome :=
  if db.any (fun i => i.rim_id == rim) then .duplicateError
  else if db.any (fun i => i.schedule_id == sid && i.rim_id == rim) then
    .duplicateError
  else .created ⟨sid, rim, defect⟩

/-! ## Concrete fixtures used by the theorems below -/

/-- Whether a create-style view answered with the 201 response. -/
def CreateOutcome.isCreated : CreateOutcome → Bool
  | .created _ _ => true
  | _ => false

/-- The date of the spec's worked scenario. -/
def d0110 : Date := ⟨2024, 1, 10⟩

/-- Create request: Bay-1, 2024-01-10, 09:00. -/
def req0900 : CreateRequest :=
  ⟨some "Bay-1", some "2024-01-10", some "09:00"⟩

/-- Create request: Bay-1, 2024-01-10, 09:01. -/
def req0901 : CreateRequest :=
  ⟨some "Bay-1", some "2024-01-10", some "09:01"⟩

/-- Create request: Bay-1, 2024-01-10, 09:30. -/
def req0930 : CreateRequest :=
  ⟨some "Bay-1", some "2024-01-10", some "09:30"⟩

/-- Create request: Bay-1, 2024-01-10, 10:00. -/
def req1000 : CreateRequest :=
  ⟨some "Bay-1", some "2024-01-10", some "10:00"⟩

/-- The booking the source stores for `req0900`: window
`[09:00, 09:03)` in seconds since midnight. -/
def sched0900 : Schedule :=
  ⟨1, "Bay-1", d0110, 32400, 32580, false, .scheduled⟩

/-- Transitions scheduled for `sched0900`. -/
def tasks0900 : List (Instant × Status) :=
  [(⟨d0110, 32400⟩, .processing), (⟨d0110, 32580⟩, .completed)]

/-- The booking stored for a create at 23:58: the end time-of-day
wrapped to 00:01. -/
def sched2358 : Schedule :=
  ⟨1, "Bay-1", d0110, 86280, 60, false, .scheduled⟩

/-- A canceled booking occupying `[09:00, 10:00)` at Bay-1. -/
def canceledBooking : Schedule :=
  ⟨1, "Bay-1", d0110, 32400, 36000, true, .scheduled⟩

/-- A live booking at Bay-1 late in the day (update target). -/
def eveningBooking : Schedule :=
  ⟨2, "Bay-1", d0110, 70000, 70180, false, .scheduled⟩

/-- An inspection with rim `RIM-1` under booking 1. -/
def insp1 : Inspection := ⟨1, "RIM-1", false⟩

/-- Table for the delete witness: a completed, a processing and a
canceled booking. -/
def delDb : List Schedule :=
  [⟨1, "A", d0110, 0, 180, false, .completed⟩,
   ⟨2, "A", d0110, 300, 480, false, .processing⟩,
   ⟨3, "A", d0110, 600, 780, true, .scheduled⟩]

/-- Table for the update witness. -/
def updDb : List Schedule := [sched0900]

/-! ## Claim theorems -/

/-- C1: the conflict check shared by create, immediate-create and
update treats two windows `[a,b)` (proposed) and `[c,d)` (existing, at
the same location and date) as overlapping iff `a < d` and `c < b`,
with strict inequalities: a proposed window entirely inside the
existing one is a conflict, and a proposed window starting exactly at
the existing end is not. -/
theorem overlap_predicate_strict_halfopen (s : Schedule) (loc : String)
    (d : Date) (a b : Nat) (hl : s.location = loc)
    (hd : s.scheduled_date = d) :
    (schedule_overlaps loc d a b s = true ↔
       (a < s.end_time ∧ s.scheduled_time < b)) ∧
    (s.scheduled_time ≤ a → b ≤ s.end_time → a < b →
       schedule_overlaps loc d a b s = true) ∧
    (a = s.end_time → schedule_overlaps loc d a b s = false) := by
  subst hl hd
  refine ⟨?_, ?_, ?_⟩
  · simp [schedule_overlaps]; tauto
  · intro h1 h2 h3; simp [schedule_overlaps]; omega
  · intro h; simp [schedule_overlaps]; omega

/-- Witness for C1: `[09:01, 09:02)` inside `[09:00, 09:03)` conflicts;
`[09:03, 09:05)` starting at the existing end does not. -/
theorem overlap_predicate_strict_halfopen_witness :
    schedule_overlaps "Bay-1" d0110 32460 32520 sched0900 = true ∧
    schedule_overlaps "Bay-1" d0110 32580 32700 sched0900 = false := by
  have h1 := overlap_predicate_strict_halfopen sched0900 "Bay-1" d0110
    32460 32520 rfl rfl
  have h2 := overlap_predicate_strict_halfopen sched0900 "Bay-1" d0110
    32580 32700 rfl rfl
  exact ⟨h1.2.1 (by decide) (by decide) (by decide), h2.2.2 (by decide)⟩

/-- C2 (code bug evaluation): the overlap querysets of all three write
paths carry no `is_canceled=False` clause, so a canceled booking at
`[09:00, 10:00)` still blocks a proposed `[09:30, 09:33)` window on
the create, immediate-create and update paths alike. -/
theorem canceled_booking_still_blocks :
    create_schedule [canceledBooking] 2 req0930 = .conflictError ∧
    create_schedule_immediately [canceledBooking] 2 (some "Bay-1")
      ⟨d0110, 34200⟩ = .conflictError ∧
    (update_schedule [canceledBooking, eveningBooking] 2 none
      ⟨d0110, 34200⟩).1 = .conflictError := by decide

/-- C3 (counterexample): the create path stores `end_time` 09:03, not
10:00, for a 09:00 create, and a second create at 09:30 on the same
location and date is accepted rather than rejected. -/
theorem create_end_time_not_sixty_minutes :
    create_schedule [] 1 req0900 = .created sched0900 tasks0900 ∧
    sched0900.end_time ≠ 36000 ∧
    (create_schedule [sched0900] 2 req0930).isCreated = true := by decide

/-- C3 (amended): the create path derives the end as start plus
3 minutes: a create at 09:00 stores the window `[09:00, 09:03)`;
second creates at 09:30 and at 10:00 then succeed, while one at 09:01
is rejected with the conflict response. -/
theorem create_window_three_minutes :
    create_schedule [] 1 req0900 = .created sched0900 tasks0900 ∧
    sched0900.scheduled_time = 32400 ∧ sched0900.end_time = 32580 ∧
    (create_schedule [sched0900] 2 req0930).isCreated = true ∧
    (create_schedule [sched0900] 2 req1000).isCreated = true ∧
    create_schedule [sched0900] 2 req0901 = .conflictError := by decide

/-- C4 (counterexample): a create at 23:58 stores an `end_time` of
00:01 — the time-of-day wrapped past midnight — so the stored
`end_time` is not after `scheduled_time`. -/
theorem end_time_wraps_past_midnight :
    create_schedule [] 1 ⟨some "Bay-1", some "2024-01-10", some "23:58"⟩
      = .created sched2358
          [(⟨d0110, 86280⟩, .processing), (⟨d0110, 60⟩, .completed)] ∧
    ¬ sched2358.scheduled_time < sched2358.end_time := by decide

/-- C4 (amended): every booking produced or modified by create,
immediate-create or update has `end_time > start_time` provided the
3-minute addendum does not cross midnight; at the midnight boundary
the stored end time-of-day wraps instead. -/
theorem end_after_start_without_midnight_wrap :
    (∀ (db : List Schedule) (nid : Nat) (r : CreateRequest)
       (s : Schedule) (tk : List (Instant × Status)),
       create_schedule db nid r = .created s tk →
       s.scheduled_time + 180 < 86400 →
       s.scheduled_time < s.end_time) ∧
    (∀ (db : List Schedule) (nid : Nat) (loc : Option String)
       (now : Instant) (s : Schedule) (tk : List (Instant × Status)),
       create_schedule_immediately db nid loc now = .created s tk →
       s.scheduled_time + 180 < 86400 →
       s.scheduled_time < s.end_time) ∧
    (∀ (db : List Schedule) (sid : Nat) (rl : Option String)
       (now : Instant) (s : Schedule) (tk : List (Instant × Status))
       (db2 : List Schedule),
       update_schedule db sid rl now = (.updated s tk, db2) →
       now.secs + 180 < 86400 →
       s.scheduled_time < s.end_time) := by
  refine ⟨?_, ?_, ?_⟩
  · intro db nid r s tk h hlt
    unfold create_schedule at h
    split at h
    · exact absurd h (by simp)
    · cases hpt : parse_time (r.scheduled_time.getD "") with
      | none => rw [hpt] at h; exact absurd h (by simp)
      | some t =>
        rw [hpt] at h
        cases hpd : parse_date (r.scheduled_date.getD "") with
        | none => rw [hpd] at h; exact absurd h (by simp)
        | some d =>
          rw [hpd] at h
          simp only at h
          split at h
          · exact absurd h (by simp)
          · injection h with h1 h2
            subst h1
            dsimp only at hlt ⊢
            omega
  · intro db nid loc now s tk h hlt
    unfold create_schedule_immediately at h
    split at h
    · exact absurd h (by simp)
    · simp only at h
      split at h
      · exact absurd h (by simp)
      · injection h with h1 h2
        subst h1
        dsimp only [Instant.addSecs] at hlt ⊢
        split
        · dsimp only; omega
        · dsimp only at hlt ⊢; omega
  · intro db sid rl now s tk db2 h hlt
    unfold update_schedule at h
    split at h
    · exact absurd h (by simp)
    · simp only [] at h
      split at h
      · exact absurd h (by simp)
      · simp only [Prod.mk.injEq, UpdateOutcome.updated.injEq] at h
        obtain ⟨⟨h1, -⟩, -⟩ := h
        subst h1
        dsimp only [reset_window, Instant.addSecs, floorMinute]
        split
        · dsimp only; omega
        · omega

/-- Witness for C4 (amended): the bookings produced by a 09:00 create,
a 14:00 immediate create and a 14:00:30 update all have
`end_time > start_time`. -/
theorem end_after_start_without_midnight_wrap_witness :
    sched0900.scheduled_time < sched0900.end_time ∧
    (⟨2, "Bay-2", d0110, 50400, 50580, false,
       .processing⟩ : Schedule).scheduled_time <
      (⟨2, "Bay-2", d0110, 50400, 50580, false,
        .processing⟩ : Schedule).end_time ∧
    (⟨1, "Bay-1", d0110, 50400, 50610, false,
       .processing⟩ : Schedule).scheduled_time <
      (⟨1, "Bay-1", d0110, 50400, 50610, false,
        .processing⟩ : Schedule).end_time := by
  refine ⟨end_after_start_without_midnight_wrap.1 [] 1 req0900
            sched0900 tasks0900 (by decide) (by decide),
          end_after_start_without_midnight_wrap.2.1 [] 2 (some "Bay-2")
            ⟨d0110, 50400⟩
            ⟨2, "Bay-2", d0110, 50400, 50580, false, .processing⟩
            [(⟨d0110, 50400⟩, .processing), (⟨d0110, 50580⟩, .completed)]
            (by decide) (by decide),
          end_after_start_without_midnight_wrap.2.2 updDb 1 none
            ⟨d0110, 50430⟩
            ⟨1, "Bay-1", d0110, 50400, 50610, false, .processing⟩
            [(⟨d0110, 50430⟩, .processing), (⟨d0110, 50610⟩, .completed)]
            [⟨1, "Bay-1", d0110, 50400, 50610, false, .processing⟩]
            (by decide) (by decide)⟩

/-- C5 (code bug evaluation): `rim_id` carries a table-wide
`unique=True` besides the per-booking `unique_together`, so a rim
identifier already used under booking 1 is rejected as a duplicate not
only under booking 1 but also under the distinct booking 2; a fresh
identifier is accepted. -/
theorem rim_id_blocked_across_bookings :
    create_inspection [insp1] 1 "RIM-1" false = .duplicateError ∧
    create_inspection [insp1] 2 "RIM-1" false = .duplicateError ∧
    create_inspection [insp1] 2 "RIM-2" false =
      .created ⟨2, "RIM-2", false⟩ := by decide

/-- C6 (counterexample): a create whose time string is not parseable
lets the `ValueError` of the second `strptime` escape the view instead
of answering a structured validation response. -/
theorem malformed_time_uncaught :
    create_schedule [] 1 ⟨some "Bay-1", some "2024-01-10", some "banana"⟩
      = .uncaughtException "scheduled_time" := by decide

/-- C6 (amended): with all three fields present, a create whose time
string fails both `strptime` formats — or whose time parses but whose
date string fails — ends in an uncaught parse exception; only the
missing-fields case gets a structured validation response. -/
theorem malformed_input_raises_uncaught (db : List Schedule) (nid : Nat)
    (l ds ts : String) (hl : l ≠ "") (hd : ds ≠ "") (ht : ts ≠ "") :
    (parse_time ts = none →
       create_schedule db nid ⟨some l, some ds, some ts⟩ =
         .uncaughtException "scheduled_time") ∧
    (∀ t, parse_time ts = some t → parse_date ds = none →
       create_schedule db nid ⟨some l, some ds, some ts⟩ =
         .uncaughtException "scheduled_date") := by
  have hm : missing_fields ⟨some l, some ds, some ts⟩ = [] := by
    simp [missing_fields, is_blank, hl, hd, ht]
  constructor
  · intro hpt
    simp [create_schedule, hm, hpt]
  · intro t hpt hpd
    simp [create_schedule, hm, hpt, hpd]

/-- Witness for C6 (amended): a create with time `25:99` and one with
date `2024-02-30` both end in the uncaught parse exception. -/
theorem malformed_input_raises_uncaught_witness :
    create_schedule [] 1 ⟨some "Bay-1", some "2024-01-10", some "25:99"⟩
      = .uncaughtException "scheduled_time" ∧
    create_schedule [] 1 ⟨some "Bay-1", some "2024-02-30", some "09:00"⟩
      = .uncaughtException "scheduled_date" := by
  have h1 := malformed_input_raises_uncaught [] 1 "Bay-1" "2024-01-10"
    "25:99" (by decide) (by decide) (by decide)
  have h2 := malformed_input_raises_uncaught [] 1 "Bay-1" "2024-02-30"
    "09:00" (by decide) (by decide) (by decide)
  exact ⟨h1.1 (by decide), h2.2 32400 (by decide) (by decide)⟩

/-- C7: delete on a completed booking answers the invalid-state
response and leaves the table unchanged; on a live booking of any
other status it sets `is_canceled` on that row while touching no
status; an id with no live row (unknown, or only canceled rows)
answers the not-found response. -/
theorem delete_schedule_semantics (db : List Schedule) (sid : Nat) :
    ((∀ s ∈ db, s.id = sid → s.is_canceled = true) →
       delete_schedule db sid = (.notFound, db)) ∧
    (∀ s, db.find? (fun t => t.id == sid && !t.is_canceled) = some s →
       s.status = .completed →
       delete_schedule db sid = (.invalidState, db)) ∧
    (∀ s, db.find? (fun t => t.id == sid && !t.is_canceled) = some s →
       s.status ≠ .completed →
       delete_schedule db sid = (.deleted, db.map (cancel_mark sid))) ∧
    (∀ t : Schedule, (cancel_mark sid t).status = t.status ∧
       (t.id = sid → (cancel_mark sid t).is_canceled = true) ∧
       (t.id ≠ sid → cancel_mark sid t = t)) := by
  refine ⟨?_, ?_, ?_, ?_⟩
  · intro hall
    have hn : db.find? (fun t => t.id == sid && !t.is_canceled)
        = none := by
      rw [List.find?_eq_none]
      intro x hx
      simp only [Bool.and_eq_true, beq_iff_eq, Bool.not_eq_true',
        not_and]
      intro h1 h2
      rw [hall x hx h1] at h2
      exact absurd h2 (by simp)
    simp [delete_schedule, hn]
  · intro s hs hc
    simp [delete_schedule, hs, hc]
  · intro s hs hc
    simp [delete_schedule, hs, hc]
  · intro t
    unfold cancel_mark
    by_cases h : t.id = sid <;> simp [h]

/-- Witness for C7: on a table with a completed booking 1, a
processing booking 2 and a canceled booking 3, delete answers
invalid-state for 1, soft-deletes 2, and not-found for 3 and for the
unknown id 99. -/
theorem delete_schedule_semantics_witness :
    delete_schedule delDb 1 = (.invalidState, delDb) ∧
    delete_schedule delDb 2 = (.deleted, delDb.map (cancel_mark 2)) ∧
    delete_schedule delDb 3 = (.notFound, delDb) ∧
    delete_schedule delDb 99 = (.notFound, delDb) := by
  refine ⟨(delete_schedule_semantics delDb 1).2.1
            ⟨1, "A", d0110, 0, 180, false, .completed⟩ (by decide) rfl,
          (delete_schedule_semantics delDb 2).2.2.1
            ⟨2, "A", d0110, 300, 480, false, .processing⟩ (by decide)
            (by decide),
          (delete_schedule_semantics delDb 3).1 (by decide),
          (delete_schedule_semantics delDb 99).1 (by decide)⟩

/-- C8: update on a live booking resets its date and time window to
the clock's "now" window (start floored to the minute, end three
minutes after now), forces status to `processing`, and its conflict
queryset excludes the booking itself; an id with no live row (unknown
or already canceled) answers the not-found response. -/
theorem update_schedule_semantics (db : List Schedule) (sid : Nat)
    (rl : Option String) (now : Instant) :
    ((∀ s ∈ db, s.id = sid → s.is_canceled = true) →
       update_schedule db sid rl now = (.notFound, db)) ∧
    (∀ s, db.find? (fun t => t.id == sid && !t.is_canceled) = some s →
       update_overlap db (rl.getD s.location) now.date
         (floorMinute now.secs) ((now.addSecs 180).secs) sid = false →
       update_schedule db sid rl now =
         (.updated (reset_window s (rl.getD s.location) now)
            [(now, .processing), (now.addSecs 180, .completed)],
          db.map (apply_update sid
            (reset_window s (rl.getD s.location) now)))) ∧
    (∀ (s : Schedule) (loc : String),
       (reset_window s loc now).scheduled_date = now.date ∧
       (reset_window s loc now).scheduled_time = floorMinute now.secs ∧
       (reset_window s loc now).end_time = (now.addSecs 180).secs ∧
       (reset_window s loc now).status = .processing ∧
       (reset_window s loc now).location = loc ∧
       (reset_window s loc now).id = s.id) ∧
    (∀ (loc : String) (d : Date) (a b : Nat),
       update_overlap db loc d a b sid =
         has_overlap (db.filter (fun t => !(t.id == sid))) loc d a b)
    := by
  refine ⟨?_, ?_, ?_, ?_⟩
  · intro hall
    have hn : db.find? (fun t => t.id == sid && !t.is_canceled)
        = none := by
      rw [List.find?_eq_none]
      intro x hx
      simp only [Bool.and_eq_true, beq_iff_eq, Bool.not_eq_true',
        not_and]
      intro h1 h2
      rw [hall x hx h1] at h2
      exact absurd h2 (by simp)
    simp [update_schedule, hn]
  · intro s hs hov
    simp [update_schedule, hs, hov]
  · intro s loc
    exact ⟨rfl, rfl, rfl, rfl, rfl, rfl⟩
  · intro loc d a b
    simp [update_overlap, has_overlap, List.any_filter]

/-- Witness for C8: updating booking 1 at 14:00:30 resets its window
to `[14:00:00, 14:03:30)` of the same day with status `processing`,
and ids 3 (canceled) and 99 (unknown) answer not-found. -/
theorem update_schedule_semantics_witness :
    update_schedule updDb 1 none ⟨d0110, 50430⟩ =
      (.updated (reset_window sched0900 "Bay-1" ⟨d0110, 50430⟩)
         [(⟨d0110, 50430⟩, .processing),
          (Instant.addSecs ⟨d0110, 50430⟩ 180, .completed)],
       updDb.map (apply_update 1
         (reset_window sched0900 "Bay-1" ⟨d0110, 50430⟩))) ∧
    update_schedule delDb 3 none ⟨d0110, 50430⟩ = (.notFound, delDb) ∧
    update_schedule updDb 99 none ⟨d0110, 50430⟩ = (.notFound, updDb)
    := by
  refine ⟨?_,
          (update_schedule_semantics delDb 3 none ⟨d0110, 50430⟩).1
            (by decide),
          (update_schedule_semantics updDb 99 none ⟨d0110, 50430⟩).1
            (by decide)⟩
  have h := (update_schedule_semantics updDb 1 none ⟨d0110, 50430⟩).2.1
    sched0900 (by decide) (by decide)
  exact h

/-- C9: an immediate create with a conflict-free window stores the
booking directly in `processing` with the window from the
minute-floored now to three minutes later, and schedules the two
transitions at exactly those instants. -/
theorem create_immediately_semantics (db : List Schedule) (nid : Nat)
    (loc : String) (now : Instant) (hloc : loc ≠ "")
    (hconf : has_overlap db loc now.date (floorMinute now.secs)
        ((Instant.addSecs ⟨now.date, floorMinute now.secs⟩ 180).secs)
        = false) :
    create_schedule_immediately db nid (some loc) now =
      .created ⟨nid, loc, now.date, floorMinute now.secs,
          (Instant.addSecs ⟨now.date, floorMinute now.secs⟩ 180).secs,
          false, .processing⟩
        [(⟨now.date, floorMinute now.secs⟩, .processing),
         (Instant.addSecs ⟨now.date, floorMinute now.secs⟩ 180,
           .completed)] := by
  simp [create_schedule_immediately, is_blank, hloc, hconf]

/-- Witness for C9: an immediate create at Bay-2 on an empty table at
14:00:00 stores status `processing` with window `[14:00, 14:03)` and
transitions at those two instants. -/
theorem create_immediately_semantics_witness :
    create_schedule_immediately [] 1 (some "Bay-2") ⟨d0110, 50400⟩ =
      .created ⟨1, "Bay-2", d0110, 50400,
          (Instant.addSecs ⟨d0110, 50400⟩ 180).secs, false, .processing⟩
        [(⟨d0110, 50400⟩, .processing),
         (Instant.addSecs ⟨d0110, 50400⟩ 180, .completed)] := by
  exact create_immediately_semantics [] 1 "Bay-2" ⟨d0110, 50400⟩
    (by decide) (by decide)

/-- C10: a create with one or more required fields missing answers the
structured validation response whose message lists every missing field
together; a field is listed exactly when it is absent or blank. -/
theorem missing_fields_all_listed (db : List Schedule) (nid : Nat)
    (r : CreateRequest) (h : missing_fields r ≠ []) :
    create_schedule db nid r =
      .validationError (missing_message (missing_fields r)) ∧
    ("location" ∈ missing_fields r ↔ is_blank r.location = true) ∧
    ("scheduled_date" ∈ missing_fields r ↔
       is_blank r.scheduled_date = true) ∧
    ("scheduled_time" ∈ missing_fields r ↔
       is_blank r.scheduled_time = true) := by
  refine ⟨?_, ?_, ?_, ?_⟩
  · unfold create_schedule
    rw [if_pos h]
  all_goals
    unfold missing_fields
    cases h1 : is_blank r.location <;>
      cases h2 : is_blank r.scheduled_date <;>
        cases h3 : is_blank r.scheduled_time <;> simp

/-- Witness for C10: a create with a missing location, a blank date
and a missing time lists all three fields in one message. -/
theorem missing_fields_all_listed_witness :
    create_schedule [] 1 ⟨none, some "", none⟩ =
      .validationError
        "Missing required fields: location, scheduled_date, scheduled_time"
    := by
  have h := (missing_fields_all_listed [] 1 ⟨none, some "", none⟩
    (by decide)).1
  have h2 : missing_message (missing_fields ⟨none, some "", none⟩) =
      "Missing required fields: location, scheduled_date, scheduled_time"
    := by decide
  rw [h2] at h
  exact h

